import Mathlib

/-!
# Verification of the JarvisAssistant record-keeping API (src/server/api.py)

Shallow embedding of the persistence and query layer of `src/server/api.py`:
JSON-like record values, the file-backed record store (`carregar_dados`,
`salvar_dados`), the per-entity create/list/update operations, and the
aggregate status report (`obter_status`).

Modelling conventions:
* A Python JSON record (`dict`) is a `Registro`: an association list of
  string keys and flat JSON values (strings, booleans, integers, null).
  The nested optional maps (`contexto`, `detalhes`) and lists (`sugestoes`)
  never participate in any filtering, sorting, merging or counting, so flat
  values suffice for every operation modelled here; all dictionary
  operations are generic in the value type.
* Python string comparison (used by `list.sort` on ISO-8601 timestamp
  strings) is code-point lexicographic; `strLe` implements exactly that
  over `String.data`.
* `list.sort(key=k)` is a stable sort ascending by `k`; with
  `reverse=True` it is the same stable sort with the comparison flipped.
  Both are modelled by `List.mergeSort` with the corresponding boolean
  comparison, matching CPython's stable mergesort (Timsort) semantics.
* A record field holding a non-string value where the code builds a string
  sort key (`x.get("timestamp", "")`) would raise `TypeError` in a Python
  tuple comparison; the model maps such a value to the empty-string key.
  No claim concerns such records.
* The backing file is a `FileContent`: missing, or a stream of JSON tokens.
  `salvar_dados` serializes to tokens (the system only ever writes arrays
  of flat objects, which this tokenizer covers exactly); `carregar_dados`
  runs a real parser over the tokens and substitutes `[]` when the file is
  missing or the tokens do not parse, mirroring the
  `except (json.JSONDecodeError, FileNotFoundError)` handler.
-/

/-- A flat JSON value as stored in the collection files. -/
inductive Value where
  | vStr (s : String)
  | vBool (b : Bool)
  | vInt (n : Int)
  | vNull
deriving DecidableEq, Repr

/-- A Python dict with string keys: an association list, first binding wins. -/
abbrev Registro := List (String × Value)

/-- `d.get(k)`: the value of the first binding of `k`, if any. -/
def dictGet (d : Registro) (k : String) : Option Value :=
  match d with
  | [] => none
  | (k', v) :: rest => if k' = k then some v else dictGet rest k

/-- `d[k] = v`: replace the first binding of `k`, or append a new one
(Python dicts keep the insertion position of an existing key). -/
def dictSet (d : Registro) (k : String) (v : Value) : Registro :=
  match d with
  | [] => [(k, v)]
  | (k', v') :: rest => if k' = k then (k', v) :: rest else (k', v') :: dictSet rest k v

/-- `d.update(u)`: fold `dictSet` over the entries of `u`. -/
def dictUpdate (d : Registro) (u : Registro) : Registro :=
  u.foldl (fun acc kv => dictSet acc kv.1 kv.2) d

/-- Python truthiness of a flat JSON value (`if c.get("aplicada", False):`). -/
def truthy : Value → Bool
  | .vStr s => s ≠ ""
  | .vBool b => b
  | .vInt n => n ≠ 0
  | .vNull => false

/-- Code-point lexicographic order on character lists: Python's `<=` on
strings restricted to the comparisons the code performs. -/
def lexLe : List Char → List Char → Bool
  | [], _ => true
  | _ :: _, [] => false
  | a :: as, b :: bs =>
    if a.val.toNat < b.val.toNat then true
    else if b.val.toNat < a.val.toNat then false
    else lexLe as bs

/-- Python `<=` on strings: code-point lexicographic comparison. -/
def strLe (a b : String) : Bool := lexLe a.data b.data

theorem lexLe_total : ∀ (a b : List Char), (lexLe a b || lexLe b a) = true
  | [], _ => by simp [lexLe]
  | _ :: _, [] => by simp [lexLe]
  | a :: as, b :: bs => by
    simp only [lexLe]
    rcases Nat.lt_trichotomy a.val.toNat b.val.toNat with h | h | h
    · simp [h]
    · simpa [h, Nat.lt_irrefl] using lexLe_total as bs
    · simp [h, Nat.lt_asymm h]

theorem lexLe_trans : ∀ (a b c : List Char),
    lexLe a b = true → lexLe b c = true → lexLe a c = true
  | [], _, _, _, _ => rfl
  | _ :: _, [], _, h1, _ => by simp [lexLe] at h1
  | _ :: _, _ :: _, [], _, h2 => by simp [lexLe] at h2
  | x :: xs, y :: ys, z :: zs, h1, h2 => by
    simp only [lexLe] at h1 h2 ⊢
    rcases Nat.lt_trichotomy x.val.toNat y.val.toNat with hxy | hxy | hxy
    · rcases Nat.lt_trichotomy y.val.toNat z.val.toNat with hyz | hyz | hyz
      · have hxz : x.val.toNat < z.val.toNat := by omega
        simp [hxz]
      · have hxz : x.val.toNat < z.val.toNat := by omega
        simp [hxz]
      · simp [Nat.lt_asymm hyz, hyz] at h2
    · rcases Nat.lt_trichotomy y.val.toNat z.val.toNat with hyz | hyz | hyz
      · have hxz : x.val.toNat < z.val.toNat := by omega
        simp [hxz]
      · have hnlt1 : ¬ x.val.toNat < z.val.toNat := by omega
        have hnlt2 : ¬ z.val.toNat < x.val.toNat := by omega
        have h1' : lexLe xs ys = true := by
          simpa [hxy, Nat.lt_irrefl] using h1
        have h2' : lexLe ys zs = true := by
          simpa [hyz, Nat.lt_irrefl] using h2
        simp [hnlt1, hnlt2]
        exact lexLe_trans xs ys zs h1' h2'
      · simp [Nat.lt_asymm hyz, hyz] at h2
    · simp [Nat.lt_asymm hxy, hxy] at h1

theorem strLe_total (a b : String) : (strLe a b || strLe b a) = true :=
  lexLe_total a.data b.data

theorem strLe_trans {a b c : String} (h1 : strLe a b = true) (h2 : strLe b c = true) :
    strLe a c = true :=
  lexLe_trans a.data b.data c.data h1 h2

/-! ## The record store (`carregar_dados` / `salvar_dados`)

The JSON text written by `json.dump` and read by `json.load` is modelled at
the token level: a file holds a stream of structural tokens and literals.
`salvar_dados` emits the token stream for an array of flat objects exactly
as `json.dump` lays it out (no trailing commas, `k: v` members), and
`carregar_dados` parses it back, recovering to `[]` on anything
unparseable, as the `except` handler in the source does. -/

/-- One JSON token. -/
inductive Tok where
  | lbrace | rbrace | lbrack | rbrack | colon | comma
  | litStr (s : String) | litBool (b : Bool) | litInt (n : Int) | litNull
deriving DecidableEq, Repr

/-- Serialize one flat value to its token. -/
def valueTok : Value → Tok
  | .vStr s => .litStr s
  | .vBool b => .litBool b
  | .vInt n => .litInt n
  | .vNull => .litNull

/-- Parse one flat value token. -/
def tokValue : Tok → Option Value
  | .litStr s => some (.vStr s)
  | .litBool b => some (.vBool b)
  | .litInt n => some (.vInt n)
  | .litNull => some .vNull
  | _ => none

/-- Tokens of the members of an object, closing brace included. -/
def serMembers : Registro → List Tok
  | [] => [.rbrace]
  | [(k, v)] => [.litStr k, .colon, valueTok v, .rbrace]
  | (k, v) :: ps => .litStr k :: .colon :: valueTok v :: .comma :: serMembers ps

/-- Tokens of one record (a JSON object of flat values). -/
def serRegistro (r : Registro) : List Tok :=
  .lbrace :: serMembers r

/-- Tokens of the elements of a non-empty array, closing bracket included. -/
def serElems : List Registro → List Tok
  | [] => [.rbrack]
  | [r] => serRegistro r ++ [.rbrack]
  | r :: rs => serRegistro r ++ .comma :: serElems rs

/-- Tokens of a whole collection file: a JSON array of records. -/
def serTop (rs : List Registro) : List Tok :=
  .lbrack :: serElems rs

/-- Parse the members of an object after its opening brace: one or more
`"k": v` pairs separated by commas, then the closing brace. -/
def parseMembers : List Tok → Option (Registro × List Tok)
  | .litStr k :: .colon :: tv :: .comma :: rest =>
    match tokValue tv, parseMembers rest with
    | some v, some (ps, r) => some ((k, v) :: ps, r)
    | _, _ => none
  | .litStr k :: .colon :: tv :: .rbrace :: rest =>
    (tokValue tv).map (fun v => ([(k, v)], rest))
  | _ => none

/-- Parse one record: `{}` or `{ members }`. -/
def parseRegistro : List Tok → Option (Registro × List Tok)
  | .lbrace :: .rbrace :: rest => some ([], rest)
  | .lbrace :: rest => parseMembers rest
  | _ => none

/-- Parse one or more array elements separated by commas, then the closing
bracket. Fuel bounds the number of elements. -/
def parseElems : Nat → List Tok → Option (List Registro × List Tok)
  | 0, _ => none
  | n + 1, toks =>
    match parseRegistro toks with
    | some (r, .comma :: rest) =>
      (parseElems n rest).map (fun p => (r :: p.1, p.2))
    | some (r, .rbrack :: rest) => some ([r], rest)
    | _ => none

/-- Parse a whole collection file: a JSON array of records with nothing
after it (as `json.load` requires), or fail. -/
def parseTop (toks : List Tok) : Option (List Registro) :=
  match toks with
  | [.lbrack, .rbrack] => some []
  | .lbrack :: rest =>
    match parseElems rest.length rest with
    | some (rs, []) => some rs
    | _ => none
  | _ => none

/-- The state of one backing file: absent, or holding a token stream. -/
inductive FileContent where
  | missing
  | stored (toks : List Tok)
deriving DecidableEq, Repr

/-- `carregar_dados(arquivo)`: return `[]` when the file does not exist;
otherwise parse it, returning `[]` when parsing fails
(`except (json.JSONDecodeError, FileNotFoundError): return default`). -/
def carregar_dados : FileContent → List Registro
  | .missing => []
  | .stored toks =>
    match parseTop toks with
    | some rs => rs
    | none => []

/-- `salvar_dados(arquivo, dados)`: overwrite the file with the serialized
collection. -/
def salvar_dados (dados : List Registro) : FileContent :=
  .stored (serTop dados)

theorem tokValue_valueTok (v : Value) : tokValue (valueTok v) = some v := by
  cases v <;> rfl

theorem parseMembers_serMembers (r : Registro) (hr : r ≠ []) (rest : List Tok) :
    parseMembers (serMembers r ++ rest) = some (r, rest) := by
  induction r with
  | nil => exact absurd rfl hr
  | cons kv ps ih =>
    obtain ⟨k, v⟩ := kv
    cases ps with
    | nil =>
      simp [serMembers, parseMembers, tokValue_valueTok]
    | cons kv' ps' =>
      have hser : serMembers ((k, v) :: kv' :: ps') =
          .litStr k :: .colon :: valueTok v :: .comma :: serMembers (kv' :: ps') := rfl
      have ihh := ih (by simp)
      simp [hser, parseMembers, tokValue_valueTok, List.append_eq, ihh]

theorem parseRegistro_serRegistro (r : Registro) (rest : List Tok) :
    parseRegistro (serRegistro r ++ rest) = some (r, rest) := by
  cases r with
  | nil => rfl
  | cons kv ps =>
    obtain ⟨k, v⟩ := kv
    have hser : serRegistro ((k, v) :: ps) ++ rest =
        .lbrace :: (serMembers ((k, v) :: ps) ++ rest) := by
      simp [serRegistro]
    rw [hser]
    have hmem := parseMembers_serMembers ((k, v) :: ps) (by simp) rest
    cases ps with
    | nil => simpa [serMembers, parseRegistro] using hmem
    | cons kv' ps' => simpa [serMembers, parseRegistro] using hmem

theorem parseElems_serElems (rs : List Registro) (hrs : rs ≠ []) (rest : List Tok) :
    ∀ fuel, rs.length ≤ fuel →
      parseElems fuel (serElems rs ++ rest) = some (rs, rest) := by
  induction rs with
  | nil => exact absurd rfl hrs
  | cons r rs' ih =>
    intro fuel hfuel
    obtain ⟨n, rfl⟩ : ∃ n, fuel = n + 1 := by
      cases fuel with
      | zero => simp at hfuel
      | succ n => exact ⟨n, rfl⟩
    cases rs' with
    | nil =>
      have : serElems [r] ++ rest = serRegistro r ++ (.rbrack :: rest) := by
        simp [serElems]
      rw [this]
      simp [parseElems, parseRegistro_serRegistro]
    | cons r2 rs'' =>
      have : serElems (r :: r2 :: rs'') ++ rest =
          serRegistro r ++ (.comma :: (serElems (r2 :: rs'') ++ rest)) := by
        simp [serElems]
      rw [this]
      have hn : (r2 :: rs'').length ≤ n := by
        simpa using Nat.lt_of_succ_le hfuel
      simp [parseElems, parseRegistro_serRegistro, ih (by simp) n hn]

theorem serElems_length_ge (rs : List Registro) : rs.length ≤ (serElems rs).length := by
  induction rs with
  | nil => simp [serElems]
  | cons r rs' ih =>
    cases rs' with
    | nil => simp [serElems, serRegistro]
    | cons r2 rs'' =>
      have hser : serElems (r :: r2 :: rs'') = serRegistro r ++ .comma :: serElems (r2 :: rs'') :=
        rfl
      rw [hser]
      simp only [List.length_append, List.length_cons, serRegistro] at ih ⊢
      omega

theorem serElems_head_not_rbrack (r : Registro) (rs : List Registro) :
    ∃ t, serElems (r :: rs) = Tok.lbrace :: t := by
  cases rs with
  | nil => exact ⟨serMembers r ++ [.rbrack], by simp [serElems, serRegistro]⟩
  | cons r2 rs' => exact ⟨serMembers r ++ .comma :: serElems (r2 :: rs'), by
      simp [serElems, serRegistro]⟩

theorem parseTop_serTop (rs : List Registro) : parseTop (serTop rs) = some rs := by
  cases rs with
  | nil => rfl
  | cons r rs' =>
    obtain ⟨t, ht⟩ := serElems_head_not_rbrack r rs'
    have hlen : (r :: rs').length ≤ (serElems (r :: rs')).length :=
      serElems_length_ge (r :: rs')
    have hparse := parseElems_serElems (r :: rs') (by simp) []
      (serElems (r :: rs')).length hlen
    simp only [List.append_nil] at hparse
    simp only [serTop, parseTop, ht]
    rw [← ht]
    simp [hparse]

/-! ## Sort keys and rank tables

One rank function per entity, from the inline dictionaries in the source:
`{"critica": 0, "alta": 1, "normal": 2, "baixa": 3}.get(x.get("prioridade", "normal"), 2)`
and its analogues. The outer `.get(..., r)` default applies to any value
outside the table — another string, a boolean, an integer or null. -/

/-- The string sort key `x.get(field, "")` (non-string values would raise
in a Python tuple comparison; no claim concerns them). -/
def strKey (r : Registro) (f : String) : String :=
  match dictGet r f with
  | some (.vStr s) => s
  | _ => ""

/-- The table `{"critica": 0, "alta": 1, "normal": 2, "baixa": 3}.get(s, 2)`. -/
def tarefaPrioRankStr (s : String) : Nat :=
  if s = "critica" then 0 else if s = "alta" then 1
  else if s = "normal" then 2 else if s = "baixa" then 3 else 2

/-- Task priority rank: missing field defaults to `"normal"`; a non-string
value falls to the table default `2`. -/
def tarefaPrioRank (r : Registro) : Nat :=
  match (dictGet r "prioridade").getD (.vStr "normal") with
  | .vStr s => tarefaPrioRankStr s
  | _ => 2

/-- The table `{"critico": 0, "erro": 1, "aviso": 2, "info": 3}.get(s, 3)`. -/
def diagSevRankStr (s : String) : Nat :=
  if s = "critico" then 0 else if s = "erro" then 1
  else if s = "aviso" then 2 else if s = "info" then 3 else 3

/-- Diagnostic severity rank: missing field defaults to `"info"`; a
non-string value falls to the table default `3`. -/
def diagSevRank (r : Registro) : Nat :=
  match (dictGet r "severidade").getD (.vStr "info") with
  | .vStr s => diagSevRankStr s
  | _ => 3

/-- The table `{"alta": 0, "media": 1, "baixa": 2}.get(s, 1)`. -/
def sugestaoPrioRankStr (s : String) : Nat :=
  if s = "alta" then 0 else if s = "media" then 1
  else if s = "baixa" then 2 else 1

/-- Suggestion priority rank: missing field defaults to `"media"`; a
non-string value falls to the table default `1`. -/
def sugestaoPrioRank (r : Registro) : Nat :=
  match (dictGet r "prioridade").getD (.vStr "media") with
  | .vStr s => sugestaoPrioRankStr s
  | _ => 1

/-- Lexicographic order on a `(rank, timestamp)` Python key tuple. -/
def pairLe (r1 : Nat) (t1 : String) (r2 : Nat) (t2 : String) : Bool :=
  r1 < r2 || (r1 = r2 && strLe t1 t2)

/-- Ascending task comparison: key `(prioRank, timestamp_criacao)`. -/
def tarefaLe (a b : Registro) : Bool :=
  pairLe (tarefaPrioRank a) (strKey a "timestamp_criacao")
    (tarefaPrioRank b) (strKey b "timestamp_criacao")

/-- Ascending diagnostic comparison: key `(sevRank, timestamp)`; the list
operation sorts with `reverse=True`, i.e. by the flip of this. -/
def diagLe (a b : Registro) : Bool :=
  pairLe (diagSevRank a) (strKey a "timestamp")
    (diagSevRank b) (strKey b "timestamp")

/-- Ascending suggestion comparison: key `(prioRank, timestamp)`. -/
def sugestaoLe (a b : Registro) : Bool :=
  pairLe (sugestaoPrioRank a) (strKey a "timestamp")
    (sugestaoPrioRank b) (strKey b "timestamp")

/-! ## Filters and list operations -/

/-- A string query-parameter filter: `if q: xs = [x for x in xs if
x.get(field) == q]`. The empty string is falsy in Python, so it applies no
constraint. -/
def strFilter (field : String) (q : Option String) (rs : List Registro) : List Registro :=
  match q with
  | none => rs
  | some s => if s = "" then rs else rs.filter (fun r => decide (dictGet r field = some (.vStr s)))

/-- A boolean query-parameter filter: `if q is not None: ...` — `False` is
distinct from absent and does constrain. -/
def boolFilter (field : String) (q : Option Bool) (rs : List Registro) : List Registro :=
  match q with
  | none => rs
  | some b => rs.filter (fun r => decide (dictGet r field = some (.vBool b)))

/-- `GET /tarefas`: load, filter by estado/agente/prioridade, sort ascending
by `(prioRank, timestamp_criacao)`, return the first `limite` records. -/
def listar_tarefas (state : FileContent) (estado agente prioridade : Option String)
    (limite : Nat) : List Registro :=
  let tarefas := carregar_dados state
  let t1 := strFilter "estado" estado tarefas
  let t2 := strFilter "agente_responsavel" agente t1
  let t3 := strFilter "prioridade" prioridade t2
  (t3.mergeSort tarefaLe).take limite

/-- `GET /diagnosticos`: load, filter by tipo/severidade, sort with
`reverse=True` on key `(sevRank, timestamp)` (a stable sort by the flipped
comparison), return the first `limite` records. -/
def listar_diagnosticos (state : FileContent) (tipo severidade : Option String)
    (limite : Nat) : List Registro :=
  let diagnosticos := carregar_dados state
  let d1 := strFilter "tipo" tipo diagnosticos
  let d2 := strFilter "severidade" severidade d1
  (d2.mergeSort (fun a b => diagLe b a)).take limite

/-- `GET /correcoes`: load, filter by aplicada/diagnostico_id, sort
descending by timestamp, return the first `limite` records. -/
def listar_correcoes (state : FileContent) (aplicada : Option Bool)
    (diagnostico_id : Option String) (limite : Nat) : List Registro :=
  let correcoes := carregar_dados state
  let c1 := boolFilter "aplicada" aplicada correcoes
  let c2 := strFilter "diagnostico_id" diagnostico_id c1
  (c2.mergeSort (fun a b => strLe (strKey b "timestamp") (strKey a "timestamp"))).take limite

/-- `GET /sugestoes`: load, filter by tipo/prioridade/implementada, sort
ascending by `(prioRank, timestamp)`, return the first `limite` records. -/
def listar_sugestoes (state : FileContent) (tipo prioridade : Option String)
    (implementada : Option Bool) (limite : Nat) : List Registro :=
  let sugestoes := carregar_dados state
  let s1 := strFilter "tipo" tipo sugestoes
  let s2 := strFilter "prioridade" prioridade s1
  let s3 := boolFilter "implementada" implementada s2
  (s3.mergeSort sugestaoLe).take limite

/-! ## Entity construction (`POST` routes)

The pydantic models fill each defaulted field from the request body when
the key is supplied, and from the declared default (or `default_factory`:
a fresh uuid for `id`, `datetime.now().isoformat()` for the timestamp)
when it is not; `Optional` fields default to null. Fields without a
default (`titulo`, `descricao`, `tipo`) are required: a body missing one
is rejected (422), modelled as `none`. `model.dict()` then lists exactly
the declared fields in declaration order. -/

/-- Build the stored dict for a `Tarefa` body. -/
def tarefaFromBody (body : Registro) (freshId servNow : String) : Option Registro :=
  match dictGet body "titulo", dictGet body "descricao" with
  | some t, some d => some
      [("id", (dictGet body "id").getD (.vStr freshId)),
       ("titulo", t),
       ("descricao", d),
       ("estado", (dictGet body "estado").getD (.vStr "pendente")),
       ("agente_responsavel", (dictGet body "agente_responsavel").getD .vNull),
       ("prioridade", (dictGet body "prioridade").getD (.vStr "normal")),
       ("timestamp_criacao", (dictGet body "timestamp_criacao").getD (.vStr servNow)),
       ("timestamp_atualizacao", (dictGet body "timestamp_atualizacao").getD .vNull),
       ("resultado", (dictGet body "resultado").getD .vNull),
       ("contexto", (dictGet body "contexto").getD .vNull)]
  | _, _ => none

/-- Build the stored dict for a `Diagnostico` body. -/
def diagnosticoFromBody (body : Registro) (freshId servNow : String) : Option Registro :=
  match dictGet body "tipo", dictGet body "descricao" with
  | some t, some d => some
      [("id", (dictGet body "id").getD (.vStr freshId)),
       ("tipo", t),
       ("descricao", d),
       ("severidade", (dictGet body "severidade").getD (.vStr "info")),
       ("timestamp", (dictGet body "timestamp").getD (.vStr servNow)),
       ("detalhes", (dictGet body "detalhes").getD .vNull),
       ("sugestoes", (dictGet body "sugestoes").getD .vNull)]
  | _, _ => none

/-- Build the stored dict for a `Correcao` body. -/
def correcaoFromBody (body : Registro) (freshId servNow : String) : Option Registro :=
  match dictGet body "descricao" with
  | some d => some
      [("id", (dictGet body "id").getD (.vStr freshId)),
       ("diagnostico_id", (dictGet body "diagnostico_id").getD .vNull),
       ("descricao", d),
       ("codigo", (dictGet body "codigo").getD .vNull),
       ("aplicada", (dictGet body "aplicada").getD (.vBool false)),
       ("timestamp", (dictGet body "timestamp").getD (.vStr servNow)),
       ("resultado", (dictGet body "resultado").getD .vNull)]
  | _ => none

/-- Build the stored dict for a `Sugestao` body. -/
def sugestaoFromBody (body : Registro) (freshId servNow : String) : Option Registro :=
  match dictGet body "tipo", dictGet body "titulo", dictGet body "descricao" with
  | some tp, some tt, some d => some
      [("id", (dictGet body "id").getD (.vStr freshId)),
       ("tipo", tp),
       ("titulo", tt),
       ("descricao", d),
       ("prioridade", (dictGet body "prioridade").getD (.vStr "media")),
       ("implementada", (dictGet body "implementada").getD (.vBool false)),
       ("timestamp", (dictGet body "timestamp").getD (.vStr servNow)),
       ("detalhes", (dictGet body "detalhes").getD .vNull)]
  | _, _, _ => none

/-- `POST /tarefa`: validate the body, append to the stored collection,
persist, and return the created record (`none` models the 422 rejection). -/
def criar_tarefa (state : FileContent) (body : Registro) (freshId servNow : String) :
    FileContent × Option Registro :=
  match tarefaFromBody body freshId servNow with
  | some t => (salvar_dados (carregar_dados state ++ [t]), some t)
  | none => (state, none)

/-- `POST /diagnostico`. -/
def criar_diagnostico (state : FileContent) (body : Registro) (freshId servNow : String) :
    FileContent × Option Registro :=
  match diagnosticoFromBody body freshId servNow with
  | some d => (salvar_dados (carregar_dados state ++ [d]), some d)
  | none => (state, none)

/-- `POST /correcao`. -/
def criar_correcao (state : FileContent) (body : Registro) (freshId servNow : String) :
    FileContent × Option Registro :=
  match correcaoFromBody body freshId servNow with
  | some c => (salvar_dados (carregar_dados state ++ [c]), some c)
  | none => (state, none)

/-- `POST /sugestao`. -/
def criar_sugestao (state : FileContent) (body : Registro) (freshId servNow : String) :
    FileContent × Option Registro :=
  match sugestaoFromBody body freshId servNow with
  | some s => (salvar_dados (carregar_dados state ++ [s]), some s)
  | none => (state, none)

/-! ## Task update (`PATCH /tarefa/{id}`) -/

/-- The linear scan of `atualizar_tarefa`: on the first record whose `id`
equals `tarefa_id`, apply `dict.update` with the request body, then set
`timestamp_atualizacao` to the current time; `none` when no record
matches. -/
def atualizar_list : List Registro → String → Registro → String →
    Option (List Registro × Registro)
  | [], _, _, _ => none
  | t :: ts, tid, body, now =>
    if dictGet t "id" = some (.vStr tid) then
      let merged := dictSet (dictUpdate t body) "timestamp_atualizacao" (.vStr now)
      some (merged :: ts, merged)
    else
      (atualizar_list ts tid body now).map (fun p => (t :: p.1, p.2))

/-- `PATCH /tarefa/{id}`: load, scan, merge-and-persist on a match, return
the merged record; on no match raise 404 (`none`) without saving. -/
def atualizar_tarefa (state : FileContent) (tid : String) (body : Registro)
    (now : String) : FileContent × Option Registro :=
  match atualizar_list (carregar_dados state) tid body now with
  | some (l, r) => (salvar_dados l, some r)
  | none => (state, none)

/-! ## Aggregate status (`GET /status`) -/

/-- Add one occurrence of `k` to a counting map (a Python dict of counts). -/
def bump (m : List (Value × Nat)) (k : Value) : List (Value × Nat) :=
  match m with
  | [] => [(k, 1)]
  | (k', n) :: rest => if k' = k then (k', n + 1) :: rest else (k', n) :: bump rest k

/-- Count records by the value of `field` (with `dflt` for a missing key),
as the `for` loops of `obter_status` do. -/
def countByField (rs : List Registro) (field : String) (dflt : Value) :
    List (Value × Nat) :=
  rs.foldl (fun m r => bump m ((dictGet r field).getD dflt)) []

/-- `sum(1 for x in xs if x.get(field, False))` — Python truthiness. -/
def countTruthy (rs : List Registro) (field : String) : Nat :=
  (rs.filter (fun r => truthy ((dictGet r field).getD (.vBool false)))).length

/-- The aggregate report returned by `GET /status` (the static `status` and
`timestamp` fields carry no collection data and are omitted). -/
structure StatusReport where
  tarefas_total : Nat
  tarefas_por_estado : List (Value × Nat)
  diagnosticos_total : Nat
  diagnosticos_por_severidade : List (Value × Nat)
  correcoes_total : Nat
  correcoes_aplicadas : Nat
  correcoes_pendentes : Nat
  sugestoes_total : Nat
  sugestoes_implementadas : Nat
  sugestoes_pendentes : Nat
deriving DecidableEq, Repr

/-- `GET /status`: load all four collections and recompute every count. -/
def obter_status (tState dState cState sState : FileContent) : StatusReport :=
  let tarefas := carregar_dados tState
  let diagnosticos := carregar_dados dState
  let correcoes := carregar_dados cState
  let sugestoes := carregar_dados sState
  { tarefas_total := tarefas.length
    tarefas_por_estado := countByField tarefas "estado" (.vStr "pendente")
    diagnosticos_total := diagnosticos.length
    diagnosticos_por_severidade := countByField diagnosticos "severidade" (.vStr "info")
    correcoes_total := correcoes.length
    correcoes_aplicadas := countTruthy correcoes "aplicada"
    correcoes_pendentes := correcoes.length - countTruthy correcoes "aplicada"
    sugestoes_total := sugestoes.length
    sugestoes_implementadas := countTruthy sugestoes "implementada"
    sugestoes_pendentes := sugestoes.length - countTruthy sugestoes "implementada" }

/-! ## Helper lemmas: dictionaries -/

theorem dictGet_dictSet_self (d : Registro) (k : String) (v : Value) :
    dictGet (dictSet d k v) k = some v := by
  induction d with
  | nil => simp [dictSet, dictGet]
  | cons kv rest ih =>
    obtain ⟨k', v'⟩ := kv
    by_cases h : k' = k
    · simp [dictSet, dictGet, h]
    · simp [dictSet, dictGet, h, ih]

theorem dictGet_dictSet_ne (d : Registro) (k k' : String) (v : Value) (h : k' ≠ k) :
    dictGet (dictSet d k v) k' = dictGet d k' := by
  induction d with
  | nil => simp [dictSet, dictGet, Ne.symm h]
  | cons kv rest ih =>
    obtain ⟨k0, v0⟩ := kv
    by_cases h0 : k0 = k
    · subst h0
      simp [dictSet, dictGet, Ne.symm h]
    · by_cases h1 : k0 = k'
      · simp [dictSet, dictGet, h0, h1, h, Ne.symm h]
      · simp [dictSet, dictGet, h0, h1, ih]

theorem dictGet_dictUpdate_not_mem (d : Registro) (u : Registro) (k : String)
    (h : k ∉ u.map Prod.fst) :
    dictGet (dictUpdate d u) k = dictGet d k := by
  induction u generalizing d with
  | nil => rfl
  | cons kv rest ih =>
    obtain ⟨k0, v0⟩ := kv
    simp only [List.map_cons, List.mem_cons] at h
    push_neg at h
    have step : dictUpdate d ((k0, v0) :: rest) = dictUpdate (dictSet d k0 v0) rest := rfl
    rw [step, ih (dictSet d k0 v0) h.2, dictGet_dictSet_ne d k0 k v0 h.1]

theorem dictGet_dictUpdate_mem (d : Registro) (u : Registro) (k : String)
    (hnd : (u.map Prod.fst).Nodup) (h : k ∈ u.map Prod.fst) :
    dictGet (dictUpdate d u) k = dictGet u k := by
  induction u generalizing d with
  | nil => simp at h
  | cons kv rest ih =>
    obtain ⟨k0, v0⟩ := kv
    have step : dictUpdate d ((k0, v0) :: rest) = dictUpdate (dictSet d k0 v0) rest := rfl
    simp only [List.map_cons, List.nodup_cons] at hnd
    by_cases hk : k0 = k
    · subst hk
      rw [step, dictGet_dictUpdate_not_mem (dictSet d k0 v0) rest k0 hnd.1,
        dictGet_dictSet_self]
      simp [dictGet]
    · have hmem : k ∈ rest.map Prod.fst := by
        simp only [List.map_cons, List.mem_cons] at h
        exact h.resolve_left (fun hh => hk hh.symm)
      rw [step, ih (dictSet d k0 v0) hnd.2 hmem]
      simp [dictGet, hk]

/-! ## Helper lemmas: the pair order and sort comparisons -/

theorem pairLe_trans {r1 r2 r3 : Nat} {t1 t2 t3 : String}
    (h1 : pairLe r1 t1 r2 t2 = true) (h2 : pairLe r2 t2 r3 t3 = true) :
    pairLe r1 t1 r3 t3 = true := by
  simp only [pairLe, Bool.or_eq_true, Bool.and_eq_true, decide_eq_true_eq] at h1 h2 ⊢
  rcases h1 with h1 | ⟨h1e, h1s⟩
  · rcases h2 with h2 | ⟨h2e, h2s⟩
    · exact Or.inl (by omega)
    · exact Or.inl (by omega)
  · rcases h2 with h2 | ⟨h2e, h2s⟩
    · exact Or.inl (by omega)
    · exact Or.inr ⟨by omega, strLe_trans h1s h2s⟩

theorem pairLe_total (r1 r2 : Nat) (t1 t2 : String) :
    (pairLe r1 t1 r2 t2 || pairLe r2 t2 r1 t1) = true := by
  simp only [pairLe, Bool.or_eq_true, Bool.and_eq_true, decide_eq_true_eq]
  rcases Nat.lt_trichotomy r1 r2 with h | h | h
  · exact Or.inl (Or.inl h)
  · have := strLe_total t1 t2
    simp only [Bool.or_eq_true] at this
    rcases this with hs | hs
    · exact Or.inl (Or.inr ⟨h, hs⟩)
    · exact Or.inr (Or.inr ⟨h.symm, hs⟩)
  · exact Or.inr (Or.inl h)

theorem tarefaLe_trans {a b c : Registro} (h1 : tarefaLe a b = true)
    (h2 : tarefaLe b c = true) : tarefaLe a c = true :=
  pairLe_trans h1 h2

theorem tarefaLe_total (a b : Registro) : (tarefaLe a b || tarefaLe b a) = true :=
  pairLe_total _ _ _ _

theorem diagLe_trans {a b c : Registro} (h1 : diagLe a b = true)
    (h2 : diagLe b c = true) : diagLe a c = true :=
  pairLe_trans h1 h2

theorem diagLe_total (a b : Registro) : (diagLe a b || diagLe b a) = true :=
  pairLe_total _ _ _ _

theorem sugestaoLe_trans {a b c : Registro} (h1 : sugestaoLe a b = true)
    (h2 : sugestaoLe b c = true) : sugestaoLe a c = true :=
  pairLe_trans h1 h2

theorem sugestaoLe_total (a b : Registro) : (sugestaoLe a b || sugestaoLe b a) = true :=
  pairLe_total _ _ _ _

/-! ## Helper lemmas: filters -/

theorem mem_strFilter_elim {field : String} {q : Option String} {rs : List Registro}
    {r : Registro} (h : r ∈ strFilter field q rs) :
    r ∈ rs ∧ (∀ s, q = some s → s ≠ "" → dictGet r field = some (.vStr s)) := by
  cases q with
  | none =>
    refine ⟨h, ?_⟩
    intro s hs
    exact absurd hs (by simp)
  | some s0 =>
    by_cases h0 : s0 = ""
    · subst h0
      simp only [strFilter, if_pos rfl] at h
      refine ⟨h, ?_⟩
      intro s hs hne
      cases hs
      exact absurd rfl hne
    · simp only [strFilter, if_neg h0, List.mem_filter, decide_eq_true_eq] at h
      refine ⟨h.1, ?_⟩
      intro s hs _
      cases hs
      exact h.2

theorem mem_boolFilter_elim {field : String} {q : Option Bool} {rs : List Registro}
    {r : Registro} (h : r ∈ boolFilter field q rs) :
    r ∈ rs ∧ (∀ b, q = some b → dictGet r field = some (.vBool b)) := by
  cases q with
  | none =>
    refine ⟨h, ?_⟩
    intro b hb
    exact absurd hb (by simp)
  | some b0 =>
    simp only [boolFilter, List.mem_filter, decide_eq_true_eq] at h
    refine ⟨h.1, ?_⟩
    intro b hb
    cases hb
    exact h.2

/-! ## Helper lemmas: counting -/

/-- The total of a counting map. -/
def sumCounts (m : List (Value × Nat)) : Nat := (m.map Prod.snd).sum

theorem sumCounts_bump (m : List (Value × Nat)) (k : Value) :
    sumCounts (bump m k) = sumCounts m + 1 := by
  induction m with
  | nil => simp [bump, sumCounts]
  | cons kn rest ih =>
    obtain ⟨k', n⟩ := kn
    by_cases h : k' = k
    · simp [bump, h, sumCounts]
      omega
    · simp only [bump, if_neg h]
      simp only [sumCounts, List.map_cons, List.sum_cons] at ih ⊢
      omega

theorem sumCounts_countByField (rs : List Registro) (field : String) (dflt : Value) :
    sumCounts (countByField rs field dflt) = rs.length := by
  have general : ∀ (m : List (Value × Nat)),
      sumCounts (rs.foldl (fun m r => bump m ((dictGet r field).getD dflt)) m) =
        sumCounts m + rs.length := by
    induction rs with
    | nil => intro m; simp
    | cons r rest ih =>
      intro m
      simp only [List.foldl_cons, List.length_cons]
      rw [ih, sumCounts_bump]
      omega
  have h := general []
  simpa [countByField, sumCounts] using h

theorem countTruthy_le_length (rs : List Registro) (field : String) :
    countTruthy rs field ≤ rs.length :=
  List.length_filter_le _ rs

/-! ## Helper lemmas: the task-update scan -/

theorem atualizar_list_not_found (ts : List Registro) (tid : String) (body : Registro)
    (now : String) (h : ∀ r ∈ ts, dictGet r "id" ≠ some (.vStr tid)) :
    atualizar_list ts tid body now = none := by
  induction ts with
  | nil => rfl
  | cons t rest ih =>
    have ht : dictGet t "id" ≠ some (.vStr tid) := h t (List.mem_cons_self t rest)
    simp [atualizar_list, ht, ih (fun r hr => h r (List.mem_cons_of_mem t hr))]

theorem atualizar_list_found (pre : List Registro) (t : Registro) (post : List Registro)
    (tid : String) (body : Registro) (now : String)
    (hpre : ∀ r ∈ pre, dictGet r "id" ≠ some (.vStr tid))
    (ht : dictGet t "id" = some (.vStr tid)) :
    atualizar_list (pre ++ t :: post) tid body now =
      some (pre ++ dictSet (dictUpdate t body) "timestamp_atualizacao" (.vStr now) :: post,
        dictSet (dictUpdate t body) "timestamp_atualizacao" (.vStr now)) := by
  induction pre with
  | nil => simp [atualizar_list, ht]
  | cons p rest ih =>
    have hp : dictGet p "id" ≠ some (.vStr tid) := hpre p (List.mem_cons_self p rest)
    simp [atualizar_list, hp, ih (fun r hr => hpre r (List.mem_cons_of_mem p hr))]

theorem atualizar_list_ids (ts : List Registro) (tid : String) (body : Registro)
    (now : String) (hid : "id" ∉ body.map Prod.fst) :
    ∀ l r, atualizar_list ts tid body now = some (l, r) →
      l.map (fun t => dictGet t "id") = ts.map (fun t => dictGet t "id") := by
  induction ts with
  | nil => intro l r h; simp [atualizar_list] at h
  | cons t rest ih =>
    intro l r h
    by_cases ht : dictGet t "id" = some (.vStr tid)
    · simp only [atualizar_list, if_pos ht, Option.some.injEq, Prod.mk.injEq] at h
      obtain ⟨hl, _⟩ := h
      subst hl
      simp only [List.map_cons, List.cons.injEq]
      refine ⟨?_, by trivial⟩
      rw [dictGet_dictSet_ne _ _ _ _ (by decide),
        dictGet_dictUpdate_not_mem t body "id" hid]
    · simp only [atualizar_list, if_neg ht, Option.map_eq_some'] at h
      obtain ⟨⟨l', r'⟩, hrec, heq⟩ := h
      obtain ⟨hl, _⟩ := Prod.mk.injEq .. ▸ heq
      subst hl
      simp only [List.map_cons, List.cons.injEq]
      exact ⟨by trivial, ih l' r' hrec⟩


/-! ## Claim C4 -/

/-- Claim C4: the load operation is total: a missing backing file loads as the
empty list, a stored token stream that fails to parse loads as the empty
list, and a stored stream that parses as a collection loads as exactly
that collection — no error ever reaches the caller. -/
theorem carregar_dados_total_spec :
    carregar_dados .missing = [] ∧
    (∀ toks, parseTop toks = none → carregar_dados (.stored toks) = []) ∧
    (∀ toks rs, parseTop toks = some rs → carregar_dados (.stored toks) = rs) := by
  refine ⟨rfl, ?_, ?_⟩
  · intro toks h
    simp [carregar_dados, h]
  · intro toks rs h
    simp [carregar_dados, h]

/-- Witness for C4: the missing file, a corrupt stream (a stray `null` token),
and a well-formed one-record file, all load without error. -/
theorem carregar_dados_total_spec_witness :
    carregar_dados .missing = [] ∧
    carregar_dados (.stored [.litNull]) = [] ∧
    carregar_dados (.stored (serTop [[("id", .vStr "t1")]])) = [[("id", .vStr "t1")]] :=
  ⟨carregar_dados_total_spec.1,
   carregar_dados_total_spec.2.1 [.litNull] (by decide),
   carregar_dados_total_spec.2.2 (serTop [[("id", .vStr "t1")]]) [[("id", .vStr "t1")]]
     (by decide)⟩

/-! ## Claim C8 -/

/-- Loading a just-saved collection recovers it (shared helper). -/
theorem carregar_dados_salvar_dados (rs : List Registro) :
    carregar_dados (salvar_dados rs) = rs := by
  simp [salvar_dados, carregar_dados, parseTop_serTop rs]

/-- Claim C8: round-trip — saving any collection of records and loading it back
yields the same collection, field for field. -/
theorem salvar_carregar_roundtrip (rs : List Registro) :
    carregar_dados (salvar_dados rs) = rs :=
  carregar_dados_salvar_dados rs

/-! ## Claim C1 -/

unseal List.merge List.mergeSort in
/-- Counterexample to C1: for a stored collection holding three diagnostics
with severities info (id d1), critico (id d2) and erro (id d3), the list
operation returns them in the order d1, d3, d2 — info, erro, critico —
because `reverse=True` flips the severity-rank component of the key too;
the claimed order critico, erro, info (d2, d3, d1) is not returned. -/
theorem listar_diagnosticos_order_counterexample :
    (listar_diagnosticos (salvar_dados
        [[("id", .vStr "d1"), ("severidade", .vStr "info"), ("timestamp", .vStr "t1")],
         [("id", .vStr "d2"), ("severidade", .vStr "critico"), ("timestamp", .vStr "t2")],
         [("id", .vStr "d3"), ("severidade", .vStr "erro"), ("timestamp", .vStr "t3")]])
        none none 100).map (fun r => dictGet r "id") =
      [some (.vStr "d1"), some (.vStr "d3"), some (.vStr "d2")] ∧
    ([some (.vStr "d1"), some (.vStr "d3"), some (.vStr "d2")] :
        List (Option Value)) ≠
      [some (.vStr "d2"), some (.vStr "d3"), some (.vStr "d1")] := by
  constructor
  · decide
  · decide

unseal List.merge List.mergeSort in
/-- Claim C1 (amended): the diagnostics list operation returns records in
non-increasing order of the key (severity rank, timestamp), the whole key
reversed — so the LEAST severe severity comes first (info before aviso
before erro before critico) and, within equal severity, the most recent
timestamp first; for a collection holding three diagnostics with
severities info, critico and erro, the list returns them in the order
info, erro, critico. -/
theorem listar_diagnosticos_sorted :
    (∀ state tipo severidade limite,
      (listar_diagnosticos state tipo severidade limite).Pairwise
        (fun a b => diagLe b a = true)) ∧
    (listar_diagnosticos (salvar_dados
        [[("id", .vStr "d1"), ("severidade", .vStr "info"), ("timestamp", .vStr "t1")],
         [("id", .vStr "d2"), ("severidade", .vStr "critico"), ("timestamp", .vStr "t2")],
         [("id", .vStr "d3"), ("severidade", .vStr "erro"), ("timestamp", .vStr "t3")]])
        none none 100).map (fun r => dictGet r "severidade") =
      [some (.vStr "info"), some (.vStr "erro"), some (.vStr "critico")] := by
  constructor
  · intro state tipo severidade limite
    have hsorted :
        ((strFilter "severidade" severidade (strFilter "tipo" tipo
          (carregar_dados state))).mergeSort (fun a b => diagLe b a)).Pairwise
          (fun a b => diagLe b a = true) := by
      apply List.sorted_mergeSort
      · intro a b c h1 h2
        exact diagLe_trans h2 h1
      · intro a b
        rw [Bool.or_comm]
        exact diagLe_total a b
    have hsub := List.take_sublist limite
      ((strFilter "severidade" severidade (strFilter "tipo" tipo
        (carregar_dados state))).mergeSort (fun a b => diagLe b a))
    exact hsorted.sublist hsub
  · decide

/-! ## Claim C3 -/

/-- Counterexample to C3: a diagnostic whose severity is the unrecognized
string "bogus" is ranked 3 — the bottom (info) rank of the table
0,1,2,3 — not a mid-rank of that table. -/
theorem diag_unknown_severity_rank_counterexample :
    diagSevRank [("severidade", Value.vStr "bogus")] = 3 ∧
    diagSevRank [("severidade", Value.vStr "bogus")] ≠ 1 ∧
    diagSevRank [("severidade", Value.vStr "bogus")] ≠ 2 := by
  refine ⟨by decide, by decide, by decide⟩

/-- Claim C3 (amended): a record whose enumerated sort field holds a string
outside the declared value set gets a fixed default rank — tasks rank 2 of
0,1,2,3 and suggestions rank 1 of 0,1,2 (the mid-ranks), but diagnostics
rank 3 of 0,1,2,3 (the bottom, info rank) — so sorting of malformed data
is deterministic and total. -/
theorem unknown_enum_default_ranks (s : String) (r : Registro) :
    (s ∉ (["critica", "alta", "normal", "baixa"] : List String) →
      dictGet r "prioridade" = some (.vStr s) → tarefaPrioRank r = 2) ∧
    (s ∉ (["critico", "erro", "aviso", "info"] : List String) →
      dictGet r "severidade" = some (.vStr s) → diagSevRank r = 3) ∧
    (s ∉ (["alta", "media", "baixa"] : List String) →
      dictGet r "prioridade" = some (.vStr s) → sugestaoPrioRank r = 1) := by
  refine ⟨?_, ?_, ?_⟩
  · intro hs hget
    simp only [List.mem_cons, List.not_mem_nil, or_false, not_or] at hs
    obtain ⟨h1, h2, h3, h4⟩ := hs
    simp [tarefaPrioRank, hget, tarefaPrioRankStr, h1, h2, h3, h4]
  · intro hs hget
    simp only [List.mem_cons, List.not_mem_nil, or_false, not_or] at hs
    obtain ⟨h1, h2, h3, h4⟩ := hs
    simp [diagSevRank, hget, diagSevRankStr, h1, h2, h3, h4]
  · intro hs hget
    simp only [List.mem_cons, List.not_mem_nil, or_false, not_or] at hs
    obtain ⟨h1, h2, h3⟩ := hs
    simp [sugestaoPrioRank, hget, sugestaoPrioRankStr, h1, h2, h3]

/-- Witness for C3 (amended): the unknown string "bogus" gets rank 2 on a
task, 3 on a diagnostic, 1 on a suggestion. -/
theorem unknown_enum_default_ranks_witness :
    tarefaPrioRank [("prioridade", Value.vStr "bogus")] = 2 ∧
    diagSevRank [("severidade", Value.vStr "bogus")] = 3 ∧
    sugestaoPrioRank [("prioridade", Value.vStr "bogus")] = 1 :=
  ⟨(unknown_enum_default_ranks "bogus" [("prioridade", Value.vStr "bogus")]).1
      (by decide) (by decide),
   (unknown_enum_default_ranks "bogus" [("severidade", Value.vStr "bogus")]).2.1
      (by decide) (by decide),
   (unknown_enum_default_ranks "bogus" [("prioridade", Value.vStr "bogus")]).2.2
      (by decide) (by decide)⟩

/-! ## Claim C5 -/

/-- Counterexample to C5: a task-creation body that supplies
`timestamp_criacao` has that value stored, not the server default —
`default_factory` only fires when the field is absent, for Task exactly as
for the other three entities. -/
theorem tarefa_caller_timestamp_counterexample :
    (tarefaFromBody [("titulo", Value.vStr "t"), ("descricao", Value.vStr "d"),
        ("timestamp_criacao", Value.vStr "2020-01-01T00:00:00")]
        "u1" "2025-10-12T00:00:00").map (fun r => dictGet r "timestamp_criacao") =
      some (some (Value.vStr "2020-01-01T00:00:00")) ∧
    (some (some (Value.vStr "2020-01-01T00:00:00")) : Option (Option Value)) ≠
      some (some (Value.vStr "2025-10-12T00:00:00")) := by
  refine ⟨by decide, by decide⟩

/-- Claim C5 (amended): every one of the four entity types accepts a
caller-supplied creation timestamp and defaults it to the server clock
only when the body omits it — Task (`timestamp_criacao`) behaves exactly
like Diagnostic, Fix and Suggestion (`timestamp`). -/
theorem creation_timestamp_accept_or_default (body : Registro) (fid now : String) :
    (∀ r, tarefaFromBody body fid now = some r →
      (dictGet body "timestamp_criacao" = none →
        dictGet r "timestamp_criacao" = some (.vStr now)) ∧
      (∀ v, dictGet body "timestamp_criacao" = some v →
        dictGet r "timestamp_criacao" = some v)) ∧
    (∀ r, diagnosticoFromBody body fid now = some r →
      (dictGet body "timestamp" = none → dictGet r "timestamp" = some (.vStr now)) ∧
      (∀ v, dictGet body "timestamp" = some v → dictGet r "timestamp" = some v)) ∧
    (∀ r, correcaoFromBody body fid now = some r →
      (dictGet body "timestamp" = none → dictGet r "timestamp" = some (.vStr now)) ∧
      (∀ v, dictGet body "timestamp" = some v → dictGet r "timestamp" = some v)) ∧
    (∀ r, sugestaoFromBody body fid now = some r →
      (dictGet body "timestamp" = none → dictGet r "timestamp" = some (.vStr now)) ∧
      (∀ v, dictGet body "timestamp" = some v → dictGet r "timestamp" = some v)) := by
  refine ⟨?_, ?_, ?_, ?_⟩
  · intro r h
    rcases h1 : dictGet body "titulo" with _ | tv <;>
      rcases h2 : dictGet body "descricao" with _ | dv <;>
      simp [tarefaFromBody, h1, h2] at h
    subst h
    constructor
    · intro h3
      simp [dictGet, h3]
    · intro v h3
      simp [dictGet, h3]
  · intro r h
    rcases h1 : dictGet body "tipo" with _ | tv <;>
      rcases h2 : dictGet body "descricao" with _ | dv <;>
      simp [diagnosticoFromBody, h1, h2] at h
    subst h
    constructor
    · intro h3
      simp [dictGet, h3]
    · intro v h3
      simp [dictGet, h3]
  · intro r h
    rcases h1 : dictGet body "descricao" with _ | dv <;>
      simp [correcaoFromBody, h1] at h
    subst h
    constructor
    · intro h3
      simp [dictGet, h3]
    · intro v h3
      simp [dictGet, h3]
  · intro r h
    rcases h1 : dictGet body "tipo" with _ | tpv <;>
      rcases h2 : dictGet body "titulo" with _ | ttv <;>
      rcases h3 : dictGet body "descricao" with _ | dv <;>
      simp [sugestaoFromBody, h1, h2, h3] at h
    subst h
    constructor
    · intro h4
      simp [dictGet, h4]
    · intro v h4
      simp [dictGet, h4]

/-- Witness for C5 (amended): a task body that omits the timestamp gets
the server clock; one that supplies it keeps the supplied value. -/
theorem creation_timestamp_accept_or_default_witness :
    dictGet [("id", Value.vStr "u1"), ("titulo", Value.vStr "t"),
      ("descricao", Value.vStr "d"), ("estado", Value.vStr "pendente"),
      ("agente_responsavel", Value.vNull), ("prioridade", Value.vStr "normal"),
      ("timestamp_criacao", Value.vStr "now1"), ("timestamp_atualizacao", Value.vNull),
      ("resultado", Value.vNull), ("contexto", Value.vNull)]
      "timestamp_criacao" = some (Value.vStr "now1") :=
  ((creation_timestamp_accept_or_default
      [("titulo", Value.vStr "t"), ("descricao", Value.vStr "d")] "u1" "now1").1
    [("id", Value.vStr "u1"), ("titulo", Value.vStr "t"),
      ("descricao", Value.vStr "d"), ("estado", Value.vStr "pendente"),
      ("agente_responsavel", Value.vNull), ("prioridade", Value.vStr "normal"),
      ("timestamp_criacao", Value.vStr "now1"), ("timestamp_atualizacao", Value.vNull),
      ("resultado", Value.vNull), ("contexto", Value.vNull)]
    (by decide)).1 (by decide)

/-! ## Claim C2 -/

/-- Counterexample to C2: updating the task with id "a" with a body that
contains an `id` field overwrites the stored id — `dict.update` does not
protect it — so the id is not immutable for arbitrary caller bodies. -/
theorem update_changes_id_counterexample :
    ((atualizar_tarefa (salvar_dados [[("id", Value.vStr "a")]]) "a"
        [("id", Value.vStr "b")] "t2").2.map (fun r => dictGet r "id")) =
      some (some (Value.vStr "b")) ∧
    (some (some (Value.vStr "b")) : Option (Option Value)) ≠
      some (some (Value.vStr "a")) := by
  refine ⟨by decide, by decide⟩

/-- Claim C2 (amended): record ids are unique and immutable only under
conditions the code leaves to the caller — the task update preserves every
stored id provided the update body contains no `id` key, and creation
preserves id-uniqueness provided the created record's id is not already
present in the collection (creation performs no uniqueness check of its
own, and an update body carrying `id` does overwrite it). -/
theorem id_unique_and_immutable_amended (state : FileContent) (tid : String)
    (body : Registro) (now fid : String) :
    ("id" ∉ body.map Prod.fst →
      (carregar_dados (atualizar_tarefa state tid body now).1).map
          (fun t => dictGet t "id") =
        (carregar_dados state).map (fun t => dictGet t "id")) ∧
    (∀ r, tarefaFromBody body fid now = some r →
      ((carregar_dados state).map (fun t => dictGet t "id")).Nodup →
      dictGet r "id" ∉ (carregar_dados state).map (fun t => dictGet t "id") →
      ((carregar_dados (criar_tarefa state body fid now).1).map
          (fun t => dictGet t "id")).Nodup) := by
  constructor
  · intro hid
    rcases hscan : atualizar_list (carregar_dados state) tid body now with _ | ⟨l, r⟩
    · simp [atualizar_tarefa, hscan]
    · simp only [atualizar_tarefa, hscan, carregar_dados_salvar_dados]
      exact atualizar_list_ids (carregar_dados state) tid body now hid l r hscan
  · intro r h hnd hnotin
    simp only [criar_tarefa, h, carregar_dados_salvar_dados, List.map_append,
      List.map_cons, List.map_nil]
    simp [List.nodup_append, hnd, hnotin]

/-- Witness for C2 (amended): an id-free update body leaves the stored ids
unchanged, and creating a record with a fresh id keeps the id list
duplicate-free. -/
theorem id_unique_and_immutable_amended_witness :
    (carregar_dados (atualizar_tarefa (salvar_dados [[("id", Value.vStr "a")]]) "a"
        [("resultado", Value.vStr "ok")] "t2").1).map (fun t => dictGet t "id") =
      [some (Value.vStr "a")] ∧
    ((carregar_dados (criar_tarefa (salvar_dados [[("id", Value.vStr "a")]])
        [("titulo", Value.vStr "t"), ("descricao", Value.vStr "d"), ("id", Value.vStr "c")]
        "u1" "now1").1).map (fun t => dictGet t "id")).Nodup := by
  constructor
  · have h := (id_unique_and_immutable_amended (salvar_dados [[("id", Value.vStr "a")]])
        "a" [("resultado", Value.vStr "ok")] "t2" "u1").1 (by decide)
    rw [h]
    decide
  · exact (id_unique_and_immutable_amended (salvar_dados [[("id", Value.vStr "a")]])
        "a" [("titulo", Value.vStr "t"), ("descricao", Value.vStr "d"),
          ("id", Value.vStr "c")] "now1" "u1").2
      [("id", Value.vStr "c"), ("titulo", Value.vStr "t"),
        ("descricao", Value.vStr "d"), ("estado", Value.vStr "pendente"),
        ("agente_responsavel", Value.vNull), ("prioridade", Value.vStr "normal"),
        ("timestamp_criacao", Value.vStr "now1"), ("timestamp_atualizacao", Value.vNull),
        ("resultado", Value.vNull), ("contexto", Value.vNull)]
      (by decide) (by decide) (by decide)

/-! ## Claim C6 -/

/-- Claim C6: for every stored task collection and update request — if no
record has the given id, the update returns NotFound (`none`) and the
stored state is untouched; if one does, the result replaces the first
matching record by the shallow merge of the request body into it with
`timestamp_atualizacao` set to the current time, persists that collection,
and returns the merged record: merged-in keys take the body's values,
every other key keeps the existing record's value. -/
theorem atualizar_tarefa_spec (state : FileContent) (tid : String) (body : Registro)
    (now : String) :
    ((∀ r ∈ carregar_dados state, dictGet r "id" ≠ some (.vStr tid)) →
      atualizar_tarefa state tid body now = (state, none)) ∧
    (∀ pre t post, carregar_dados state = pre ++ t :: post →
      (∀ r ∈ pre, dictGet r "id" ≠ some (.vStr tid)) →
      dictGet t "id" = some (.vStr tid) →
      atualizar_tarefa state tid body now =
        (salvar_dados (pre ++ dictSet (dictUpdate t body) "timestamp_atualizacao"
            (.vStr now) :: post),
         some (dictSet (dictUpdate t body) "timestamp_atualizacao" (.vStr now))) ∧
      dictGet (dictSet (dictUpdate t body) "timestamp_atualizacao" (.vStr now))
          "timestamp_atualizacao" = some (.vStr now) ∧
      (∀ k, k ≠ "timestamp_atualizacao" → k ∉ body.map Prod.fst →
        dictGet (dictSet (dictUpdate t body) "timestamp_atualizacao" (.vStr now)) k =
          dictGet t k) ∧
      ((body.map Prod.fst).Nodup → ∀ k, k ≠ "timestamp_atualizacao" →
        k ∈ body.map Prod.fst →
        dictGet (dictSet (dictUpdate t body) "timestamp_atualizacao" (.vStr now)) k =
          dictGet body k)) := by
  constructor
  · intro hnone
    simp [atualizar_tarefa, atualizar_list_not_found _ _ _ _ hnone]
  · intro pre t post hsplit hpre ht
    refine ⟨?_, dictGet_dictSet_self _ _ _, ?_, ?_⟩
    · simp [atualizar_tarefa, hsplit,
        atualizar_list_found pre t post tid body now hpre ht]
    · intro k hk hkb
      rw [dictGet_dictSet_ne _ _ _ _ hk, dictGet_dictUpdate_not_mem t body k hkb]
    · intro hnd k hk hkb
      rw [dictGet_dictSet_ne _ _ _ _ hk, dictGet_dictUpdate_mem t body k hnd hkb]

/-- Witness for C6: a two-task store — updating the second task merges the
body and stamps the update time; updating a missing id returns NotFound
and leaves the store unchanged. -/
theorem atualizar_tarefa_spec_witness :
    atualizar_tarefa (salvar_dados [[("id", Value.vStr "x")], [("id", Value.vStr "a")]])
        "a" [("resultado", Value.vStr "ok")] "t9" =
      (salvar_dados [[("id", Value.vStr "x")],
        [("id", Value.vStr "a"), ("resultado", Value.vStr "ok"),
         ("timestamp_atualizacao", Value.vStr "t9")]],
       some [("id", Value.vStr "a"), ("resultado", Value.vStr "ok"),
         ("timestamp_atualizacao", Value.vStr "t9")]) ∧
    atualizar_tarefa (salvar_dados [[("id", Value.vStr "x")]]) "zz"
        [("resultado", Value.vStr "ok")] "t9" =
      (salvar_dados [[("id", Value.vStr "x")]], none) := by
  constructor
  · have h := ((atualizar_tarefa_spec (salvar_dados
        [[("id", Value.vStr "x")], [("id", Value.vStr "a")]]) "a"
        [("resultado", Value.vStr "ok")] "t9").2 [[("id", Value.vStr "x")]]
        [("id", Value.vStr "a")] [] (by decide) (by decide) (by decide)).1
    rw [h]
    decide
  · exact (atualizar_tarefa_spec (salvar_dados [[("id", Value.vStr "x")]]) "zz"
      [("resultado", Value.vStr "ok")] "t9").1 (by decide)

/-! ## Claim C7 -/

/-- Claim C7: for arbitrarily constructed collections, the status report's
totals equal the collection lengths, the per-state and per-severity
breakdown maps sum back to their totals, and applied (implemented) plus
derived pending counts equal the fix (suggestion) totals. -/
theorem obter_status_counts_consistent (tS dS cS sS : FileContent) :
    (obter_status tS dS cS sS).tarefas_total = (carregar_dados tS).length ∧
    sumCounts (obter_status tS dS cS sS).tarefas_por_estado =
      (obter_status tS dS cS sS).tarefas_total ∧
    (obter_status tS dS cS sS).diagnosticos_total = (carregar_dados dS).length ∧
    sumCounts (obter_status tS dS cS sS).diagnosticos_por_severidade =
      (obter_status tS dS cS sS).diagnosticos_total ∧
    (obter_status tS dS cS sS).correcoes_total = (carregar_dados cS).length ∧
    (obter_status tS dS cS sS).correcoes_aplicadas +
        (obter_status tS dS cS sS).correcoes_pendentes =
      (obter_status tS dS cS sS).correcoes_total ∧
    (obter_status tS dS cS sS).sugestoes_total = (carregar_dados sS).length ∧
    (obter_status tS dS cS sS).sugestoes_implementadas +
        (obter_status tS dS cS sS).sugestoes_pendentes =
      (obter_status tS dS cS sS).sugestoes_total := by
  refine ⟨rfl, ?_, rfl, ?_, rfl, ?_, rfl, ?_⟩
  · simp only [obter_status]
    exact sumCounts_countByField (carregar_dados tS) "estado" (.vStr "pendente")
  · simp only [obter_status]
    exact sumCounts_countByField (carregar_dados dS) "severidade" (.vStr "info")
  · simp only [obter_status]
    have := countTruthy_le_length (carregar_dados cS) "aplicada"
    omega
  · simp only [obter_status]
    have := countTruthy_le_length (carregar_dados sS) "implementada"
    omega

/-! ## Claim C9 -/

/-- Claim C9: the task list operation retains exactly the records matching
all supplied filters (exact equality per field), sorts, then truncates:
with a limit in the allowed range 1–1000 the result holds at most `limite`
records, every returned record comes from the stored collection and
matches every supplied (non-empty) filter, and the result is precisely the
filter-sort-truncate pipeline — hence equal across repeated calls on the
same stored collection. -/
theorem listar_tarefas_spec (state : FileContent) (estado agente prioridade : Option String)
    (limite : Nat) (hlow : 1 ≤ limite) (hhigh : limite ≤ 1000) :
    (listar_tarefas state estado agente prioridade limite).length ≤ limite ∧
    (∀ r ∈ listar_tarefas state estado agente prioridade limite,
      r ∈ carregar_dados state ∧
      (∀ s, estado = some s → s ≠ "" → dictGet r "estado" = some (.vStr s)) ∧
      (∀ s, agente = some s → s ≠ "" → dictGet r "agente_responsavel" = some (.vStr s)) ∧
      (∀ s, prioridade = some s → s ≠ "" → dictGet r "prioridade" = some (.vStr s))) ∧
    listar_tarefas state estado agente prioridade limite =
      ((strFilter "prioridade" prioridade (strFilter "agente_responsavel" agente
          (strFilter "estado" estado (carregar_dados state)))).mergeSort
        tarefaLe).take limite := by
  refine ⟨List.length_take_le _ _, ?_, rfl⟩
  intro r hr
  have hr' : r ∈ (strFilter "prioridade" prioridade (strFilter "agente_responsavel" agente
      (strFilter "estado" estado (carregar_dados state)))).mergeSort tarefaLe :=
    List.mem_of_mem_take hr
  rw [List.mem_mergeSort] at hr'
  obtain ⟨hr3, hprio⟩ := mem_strFilter_elim hr'
  obtain ⟨hr2, hag⟩ := mem_strFilter_elim hr3
  obtain ⟨hmem, hest⟩ := mem_strFilter_elim hr2
  exact ⟨hmem, hest, hag, hprio⟩

/-- Witness for C9: with the default limit 100 on a one-task store, the
bounds hold and the result length is within the limit. -/
theorem listar_tarefas_spec_witness :
    1 ≤ 100 ∧ 100 ≤ 1000 ∧
    (listar_tarefas (salvar_dados [[("id", Value.vStr "a")]]) none none none 100).length ≤
      100 :=
  ⟨by decide, by decide,
   (listar_tarefas_spec (salvar_dados [[("id", Value.vStr "a")]]) none none none 100
      (by decide) (by decide)).1⟩

/-! ## Claim C10 -/

unseal List.merge List.mergeSort in
/-- Claim C10: a string-valued filter given as the empty string is falsy
in the `if estado:` guards and applies no constraint — for every stored
collection the list result with an empty-string state/agent/priority/kind/
severity/diagnostic_id filter equals the result with that filter absent —
whereas the boolean filters use `is not None` and do constrain when false:
a stored fix with `aplicada = true` (suggestion with `implementada = true`)
is returned when the filter is absent but excluded by `aplicada=false`
(`implementada=false`). -/
theorem empty_string_filters_inactive :
    (∀ state ag pr lim, listar_tarefas state (some "") ag pr lim =
      listar_tarefas state none ag pr lim) ∧
    (∀ state es pr lim, listar_tarefas state es (some "") pr lim =
      listar_tarefas state es none pr lim) ∧
    (∀ state es ag lim, listar_tarefas state es ag (some "") lim =
      listar_tarefas state es ag none lim) ∧
    (∀ state sev lim, listar_diagnosticos state (some "") sev lim =
      listar_diagnosticos state none sev lim) ∧
    (∀ state tp lim, listar_diagnosticos state tp (some "") lim =
      listar_diagnosticos state tp none lim) ∧
    (∀ state ap lim, listar_correcoes state ap (some "") lim =
      listar_correcoes state ap none lim) ∧
    (∀ state pr im lim, listar_sugestoes state (some "") pr im lim =
      listar_sugestoes state none pr im lim) ∧
    (∀ state tp im lim, listar_sugestoes state tp (some "") im lim =
      listar_sugestoes state tp none im lim) ∧
    listar_correcoes (salvar_dados [[("id", Value.vStr "c1"),
        ("aplicada", Value.vBool true), ("timestamp", Value.vStr "t1")]])
      (some false) none 100 = [] ∧
    listar_correcoes (salvar_dados [[("id", Value.vStr "c1"),
        ("aplicada", Value.vBool true), ("timestamp", Value.vStr "t1")]])
      none none 100 =
      [[("id", Value.vStr "c1"), ("aplicada", Value.vBool true),
        ("timestamp", Value.vStr "t1")]] ∧
    listar_sugestoes (salvar_dados [[("id", Value.vStr "s1"),
        ("implementada", Value.vBool true), ("timestamp", Value.vStr "t1")]])
      none none (some false) 100 = [] ∧
    listar_sugestoes (salvar_dados [[("id", Value.vStr "s1"),
        ("implementada", Value.vBool true), ("timestamp", Value.vStr "t1")]])
      none none none 100 =
      [[("id", Value.vStr "s1"), ("implementada", Value.vBool true),
        ("timestamp", Value.vStr "t1")]] := by
  refine ⟨?_, ?_, ?_, ?_, ?_, ?_, ?_, ?_, by decide, by decide, by decide, by decide⟩
  · intro state ag pr lim
    simp [listar_tarefas, strFilter]
  · intro state es pr lim
    simp [listar_tarefas, strFilter]
  · intro state es ag lim
    simp [listar_tarefas, strFilter]
  · intro state sev lim
    simp [listar_diagnosticos, strFilter]
  · intro state tp lim
    simp [listar_diagnosticos, strFilter]
  · intro state ap lim
    simp [listar_correcoes, strFilter]
  · intro state pr im lim
    simp [listar_sugestoes, strFilter]
  · intro state tp im lim
    simp [listar_sugestoes, strFilter]
